import Mathlib

/-!
Shallow embedding of the slidesolve backend (`src/main.py`).

The repository is a single FastAPI module.  The embedding below models, in
order of appearance in the source:

* `extract_text` (main.py lines 40-69): dispatch on the declared file
  extension to one of three decoders.  The external decoding libraries
  (PyMuPDF, python-pptx, python-docx) are modelled abstractly by a
  `DocBytes` record that states, for each decoder, whether the byte buffer
  parses and, if so, which text fragments (pages / shapes / paragraphs) it
  yields; `extract_text` itself joins the fragments with a single space
  exactly as the list comprehensions in the source do.
* the response-validation tail of `generate_exam_questions` (lines 119-128):
  the OpenAI network call is abstracted into an `Option Json` argument that
  models the outcome of `json.loads` on the reply content, `none` being a
  `JSONDecodeError`.
* `upload_file` (lines 148-184): extension check against
  `SUPPORTED_EXTENSIONS`, extraction, generation, and the store write.
* `submit_answers` (lines 197-219), including its outer blanket
  `except Exception` handler which rewraps every exception - the inner
  `HTTPException(400)` included - into a 500.
* `get_results` (lines 221-285): the grading loop, the score formula, the
  suggestion tiers and the response record.  Stored question sets are typed
  (records with a `question` and an `answer` string field, an `id` being
  allowed but unused by the code), matching the schema the code itself
  requests from the model at lines 94-107.  The f-string `f"{score:.1f}%"`
  of line 273 is modelled by rounding the exact rational score to the
  nearest tenth (`formatTenths`); none of the claims depends on the
  direction of a decimal tie, so binary-double tie behaviour is immaterial.

Strings are treated at the ASCII level: Python `str.strip`/`str.lower`
become whitespace trimming and `Char.toLower` over the character list
(`trimChars`, `normalize`), kept structural so the kernel can evaluate
them.  Python dicts become association lists looked up with
`List.lookup`; dict assignment replaces an existing key.  All definitions
are executable.
-/

namespace SlideSolve

/-- JSON values, as produced by `json.loads` in the source. -/
inductive Json where
  | null : Json
  | bool (b : Bool) : Json
  | num (n : Int) : Json
  | str (s : String) : Json
  | arr (elems : List Json) : Json
  | obj (fields : List (String × Json)) : Json

/-- An HTTP error response, modelling `fastapi.HTTPException`. -/
structure HttpError where
  status : Nat
  detail : String
  deriving DecidableEq

/-- main.py line 37: the extension allow-list. -/
def SUPPORTED_EXTENSIONS : List String := ["pdf", "docx", "pptx", "ppt"]

/-- Abstract view of a raw byte buffer through the three external decoders
used by `extract_text`.  A field is `none` when the corresponding library
raises on these bytes (corrupt / wrong-format input) and `some fragments`
when it parses, yielding the per-page, per-shape or per-paragraph text
fragments the source's list comprehensions iterate over. -/
structure DocBytes where
  asPdf : Option (List String)
  asSlides : Option (List String)
  asDocx : Option (List String)
  deriving DecidableEq

/-- main.py lines 40-69, `extract_text`: dispatch purely on the declared
extension; join the decoded fragments with `" ".join(...)`; any decoder
failure or an unsupported extension becomes an error (the source rewraps
both as `HTTPException(400, "Failed to process ... file: ...")`). -/
def extract_text (file_bytes : DocBytes) (extension : String) : Except String String :=
  if extension == "pdf" then
    match file_bytes.asPdf with
    | some pages => .ok (" ".intercalate pages)
    | none => .error ("Failed to process " ++ extension.toUpper ++ " file: cannot parse")
  else if extension == "pptx" || extension == "ppt" then
    match file_bytes.asSlides with
    | some shapes => .ok (" ".intercalate shapes)
    | none => .error ("Failed to process " ++ extension.toUpper ++ " file: cannot parse")
  else if extension == "docx" then
    match file_bytes.asDocx with
    | some paras => .ok (" ".intercalate paras)
    | none => .error ("Failed to process " ++ extension.toUpper ++ " file: cannot parse")
  else
    .error ("Failed to process " ++ extension.toUpper ++ " file: Unsupported file type: " ++ extension)

/-- Whether extraction raised (modelled as the `Except.error` branch). -/
def extractionFails (file_bytes : DocBytes) (extension : String) : Bool :=
  match extract_text file_bytes extension with
  | .error _ => true
  | .ok _ => false

/-- main.py lines 119-128, the response-validation tail of
`generate_exam_questions`: `json.loads(content)` is the sole check - a
parse failure (`none`) becomes `HTTPException(500, ...)`, and any parsed
JSON value is returned as the question set, unexamined. -/
def parse_generation_reply (reply : Option Json) : Except HttpError Json :=
  match reply with
  | some j => .ok j
  | none => .error ⟨500, "Failed to parse question format. Please try again."⟩

/-- One value of the `question_bank` store as written by `upload_file`
(main.py lines 166-169): the extracted text plus the parsed reply. -/
structure UploadEntry where
  text : String
  questions : Json

/-- main.py line 153, `file.filename.split(".")[-1].lower()`: everything
after the last dot (the whole name when no dot occurs), lowercased.
Implemented over the character list so the kernel can evaluate it. -/
def extensionOf (filename : String) : String :=
  ⟨((filename.data.reverse.takeWhile (fun c => !(c == '.'))).reverse).map Char.toLower⟩

/-- main.py lines 148-184, `upload_file`: take the lowercased last
dot-component of the filename, reject extensions outside
`SUPPORTED_EXTENSIONS`, extract, parse the generation reply, then store
under the filename (dict assignment: replace any previous entry).  Errors
leave the store untouched.  Returns the response payload and the new
store. -/
def upload_file (file_bytes : DocBytes) (filename : String) (reply : Option Json)
    (question_bank : List (String × UploadEntry)) :
    Except HttpError Json × List (String × UploadEntry) :=
  let extension := extensionOf filename
  if !(SUPPORTED_EXTENSIONS.contains extension) then
    (.error ⟨400, "Unsupported file type. Supported formats: pdf, docx, pptx, ppt"⟩,
      question_bank)
  else
    match extract_text file_bytes extension with
    | .error msg => (.error ⟨400, msg⟩, question_bank)
    | .ok text =>
      match parse_generation_reply reply with
      | .error e => (.error e, question_bank)
      | .ok questions =>
        (.ok questions,
          (filename, ⟨text, questions⟩) :: question_bank.filter (fun p => !(p.1 == filename)))

/-- A submitted answer mapping: the JSON object body of `/submit-answers`,
keys being question prompts (or ids) and values the raw answer strings. -/
abbrev Answers := List (String × String)

/-- main.py lines 200-208, the body of `submit_answers` inside the outer
handler: a `JSONDecodeError` (modelled by `parsed = none`) raises
`HTTPException(400, "Invalid answer format. Use JSON.")`; otherwise the
parsed dict is stored under the filename (replacing any previous entry).
Returns the response and the resulting `student_answers` store. -/
def submit_answers_body (parsed : Option Answers) (filename : String)
    (student_answers : List (String × Answers)) :
    Except HttpError String × List (String × Answers) :=
  match parsed with
  | none => (.error ⟨400, "Invalid answer format. Use JSON."⟩, student_answers)
  | some answers_dict =>
    (.ok "Answers submitted successfully",
      (filename, answers_dict) :: student_answers.filter (fun p => !(p.1 == filename)))

/-- main.py lines 197-219, `submit_answers` with its outer
`except Exception` clause.  Unlike `upload_file`, this endpoint has no
`except HTTPException: raise` passthrough, so the `HTTPException(400)`
raised by the body is itself caught by `except Exception as e` and
rewrapped as `HTTPException(500, f"Failed to process answers: {str(e)}")`,
where `str` of a starlette `HTTPException` is `"{status_code}: {detail}"`. -/
def submit_answers (parsed : Option Answers) (filename : String)
    (student_answers : List (String × Answers)) :
    Except HttpError String × List (String × Answers) :=
  match submit_answers_body parsed filename student_answers with
  | (.ok r, s) => (.ok r, s)
  | (.error e, s) =>
    (.error ⟨500, "Failed to process answers: " ++ toString e.status ++ ": " ++ e.detail⟩, s)

/-- One graded question record: a `question` prompt and an `answer`
canonical string, as in the schema requested at main.py lines 94-107.  An
optional `id` is carried to model transports that tag questions with
identifiers; the grading code never reads it. -/
structure Question where
  id : Option String
  question : String
  answer : String
  deriving DecidableEq

/-- The three question lists of a stored generation reply
(`multiple_choice`, `fill_in`, `short_answer`). -/
structure QuestionSet where
  multiple_choice : List Question
  fill_in : List Question
  short_answer : List Question
  deriving DecidableEq

/-- The flattened question sequence in the exact order the grading loop of
main.py lines 234-235 visits it: multiple choice, then fill-in, then short
answer, each list in order. -/
def QuestionSet.all (qs : QuestionSet) : List Question :=
  qs.multiple_choice ++ qs.fill_in ++ qs.short_answer

/-- One `question_bank` entry as read by `get_results`: the stored
`{"text": ..., "questions": ...}` dict, with the questions typed by the
schema the grader field-accesses. -/
structure StoredDoc where
  text : String
  questions : QuestionSet
  deriving DecidableEq

/-- Leading- and trailing-whitespace removal on a character list,
modelling Python `str.strip()`. -/
def trimChars (l : List Char) : List Char :=
  ((l.dropWhile Char.isWhitespace).reverse.dropWhile Char.isWhitespace).reverse

/-- The answer normalization of main.py lines 237-238: `.strip().lower()`
(ASCII case mapping), applied identically to the submitted and the
canonical answer. -/
def normalize (s : String) : String := ⟨(trimChars s.data).map Char.toLower⟩

/-- One mismatch record appended by main.py lines 243-247; the source
stores the already-normalized strings in `your_answer` and
`correct_answer`. -/
structure Mismatch where
  question : String
  your_answer : String
  correct_answer : String
  deriving DecidableEq

/-- The accumulator of the grading loop (main.py lines 230-232). -/
structure GradeState where
  correct : Nat
  total : Nat
  feedback : List Mismatch
  deriving DecidableEq

/-- One iteration of the grading loop, main.py lines 236-247: count the
question, look the submitted answer up by the prompt text with `""` as the
default, normalize both sides, and either increment `correct` or append a
mismatch record. -/
def gradeStep (answers : Answers) (st : GradeState) (q : Question) : GradeState :=
  let user_answer := normalize ((answers.lookup q.question).getD "")
  let correct_answer := normalize q.answer
  if user_answer == correct_answer then
    { st with correct := st.correct + 1, total := st.total + 1 }
  else
    { st with total := st.total + 1,
              feedback := st.feedback ++ [⟨q.question, user_answer, correct_answer⟩] }

/-- Whether the loop of main.py lines 236-241 marks a question correct:
the normalized prompt-lookup (default `""`) equals the normalized
canonical answer. -/
def isMatch (answers : Answers) (q : Question) : Bool :=
  normalize ((answers.lookup q.question).getD "") == normalize q.answer

/-- The mismatch record the loop appends for an incorrectly answered
question. -/
def mkMismatch (answers : Answers) (q : Question) : Mismatch :=
  ⟨q.question, normalize ((answers.lookup q.question).getD ""), normalize q.answer⟩

/-- The whole grading loop over the flattened question list. -/
def gradeAll (answers : Answers) (qs : List Question) : GradeState :=
  qs.foldl (gradeStep answers) ⟨0, 0, []⟩

/-- main.py line 250: `(correct / total) * 100 if total > 0 else 0`,
over exact rationals. -/
def computeScore (correct total : Nat) : ℚ :=
  if 0 < total then ((correct : ℚ) / (total : ℚ)) * 100 else 0

/-- The rational value displayed by the f-string `f"{score:.1f}%"` of
main.py line 273: the score rounded to the nearest tenth. -/
def formatTenths (score : ℚ) : ℚ := (⌊score * 10 + 1 / 2⌋ : ℚ) / 10

/-- main.py lines 254-258: the suggestion tier for `score < 50`. -/
def foundationalSuggestions : List String :=
  ["Focus on fundamental concepts", "Review chapter summaries", "Practice basic definitions"]

/-- main.py lines 260-264: the suggestion tier for `50 <= score < 75`. -/
def applicationSuggestions : List String :=
  ["Work on application problems", "Practice time management", "Review diagrams and charts"]

/-- main.py lines 266-270: the suggestion tier for `score >= 75`. -/
def masterySuggestions : List String :=
  ["Excellent performance!", "Challenge yourself with advanced problems",
   "Help peers with difficult concepts"]

/-- main.py lines 251-270: the tiered suggestion selection. -/
def suggestFor (score : ℚ) : List String :=
  if score < 50 then foundationalSuggestions
  else if score < 75 then applicationSuggestions
  else masterySuggestions

/-- `question_bank.get(filename, {})` followed by
`.get("questions", {})` / `.get(q_type, [])` (main.py lines 226, 235): a
missing entry yields the empty question set. -/
def storedQuestions (question_bank : List (String × StoredDoc)) (filename : String) :
    QuestionSet :=
  match question_bank.lookup filename with
  | some d => d.questions
  | none => ⟨[], [], []⟩

/-- `student_answers.get(filename, {})` (main.py line 227). -/
def storedAnswers (student_answers : List (String × Answers)) (filename : String) : Answers :=
  (student_answers.lookup filename).getD []

/-- The response record of main.py lines 272-278.  `score` is the exact
rational of line 250 (the value the tier selection reads); `score_display`
is the rounded value serialized by `f"{score:.1f}%"`. -/
structure ResultsResponse where
  score : ℚ
  score_display : ℚ
  correct : Nat
  total : Nat
  feedback : List Mismatch
  suggestions : List String
  deriving DecidableEq

/-- main.py lines 221-278, `get_results`: fetch both stores with empty
defaults, run the grading loop, compute the score, pick the suggestion
tier, and answer with the first 5 mismatches (`feedback[:5]`, line 276).
The function is total: with typed stores the Python body raises nothing,
so the outer `except Exception` of lines 280-285 is dead. -/
def get_results (question_bank : List (String × StoredDoc))
    (student_answers : List (String × Answers)) (filename : String) : ResultsResponse :=
  let questions := storedQuestions question_bank filename
  let answers := storedAnswers student_answers filename
  let st := gradeAll answers questions.all
  let score := computeScore st.correct st.total
  { score := score
    score_display := formatTenths score
    correct := st.correct
    total := st.total
    feedback := st.feedback.take 5
    suggestions := suggestFor score }

/-- Modelled from the spec: `FormatConverter.convert` (spec section 4.2)
has no implementation in the source; it is modelled as an abstract
function that either yields modern-format bytes or fails, and this
definition is the routing the spec prescribes for the legacy `.ppt`
format (spec section 4.1): convert first, then extract as a modern slide
deck, a conversion failure surfacing as a `ConversionError`.  All other
formats extract as in the source. -/
def extract_text_with_converter (convert : DocBytes → Option DocBytes)
    (file_bytes : DocBytes) (extension : String) : Except String String :=
  if extension == "ppt" then
    match convert file_bytes with
    | some modern => extract_text modern "pptx"
    | none => .error "ConversionError: external conversion utility failed"
  else extract_text file_bytes extension

/-- A conversion utility that is unavailable (always fails). -/
def failingConverter : DocBytes → Option DocBytes := fun _ => none

/-- Modelled from the spec: the answer lookup of spec section 4.5 step 1 -
by question identifier, falling back to the prompt text when the id is not
a key of the submission (or the question has no id), a missing answer
defaulting to the empty string.  The source has no such id lookup. -/
def lookupByIdSpec (answers : Answers) (q : Question) : String :=
  match q.id with
  | some i =>
    match answers.lookup i with
    | some v => v
    | none => (answers.lookup q.question).getD ""
  | none => (answers.lookup q.question).getD ""

/-- Field access on a JSON object (`none` on non-objects or missing keys). -/
def jsonField (j : Json) (key : String) : Option Json :=
  match j with
  | .obj fields => fields.lookup key
  | _ => none

/-- Whether a JSON object has a string under the given key. -/
def hasStrField (j : Json) (key : String) : Bool :=
  match jsonField j key with
  | some (.str _) => true
  | _ => false

/-- A JSON-array field, as a list (`none` when absent or not an array). -/
def jsonListField (j : Json) (key : String) : Option (List Json) :=
  match jsonField j key with
  | some (.arr xs) => some xs
  | _ => none

/-- Modelled from the spec: one multiple-choice record is valid when the
required `question` and `answer` string fields are present and `options`
is an array of exactly 4 entries (spec section 4.4). -/
def mcEntryValid (j : Json) : Bool :=
  hasStrField j "question" && hasStrField j "answer" &&
    (match jsonListField j "options" with
     | some xs => xs.length == 4
     | none => false)

/-- Modelled from the spec: a fill-in or short-answer record is valid when
the required `question` and `answer` string fields are present. -/
def qaEntryValid (j : Json) : Bool :=
  hasStrField j "question" && hasStrField j "answer"

/-- Modelled from the spec: the `ExamResponseValidator` of spec section
4.4, absent from the source - the reply must carry the three expected
question arrays, every record must have its required fields, and every
multiple-choice record exactly 4 options. -/
def validExamReply_spec (j : Json) : Bool :=
  match jsonListField j "multiple_choice", jsonListField j "fill_in",
      jsonListField j "short_answer" with
  | some mc, some fi, some sa =>
    mc.all mcEntryValid && fi.all qaEntryValid && sa.all qaEntryValid
  | _, _, _ => false

/-- A byte buffer that parses as a PDF but yields zero extractable text. -/
def pdfNoText : DocBytes := ⟨some [], none, none⟩

/-- A byte buffer whose raw (unconverted) bytes the modern slide decoder
happens to accept, yielding one shape text. -/
def pptLegacyBytes : DocBytes := ⟨none, some ["legacy shape text"], none⟩

/-- A byte buffer that parses as a PDF with one page of text. -/
def pdfSampleBytes : DocBytes := ⟨some ["slide text"], none, none⟩

/-- A well-formed generation reply with no questions at all. -/
def emptyReply : Json :=
  .obj [("multiple_choice", .arr []), ("fill_in", .arr []), ("short_answer", .arr [])]

/-- A parseable generation reply whose single multiple-choice record has
only 3 options (its 4th option is missing). -/
def badReply3 : Json :=
  .obj
    [("multiple_choice",
        .arr
          [.obj
            [("question", .str "2+2?"),
             ("options", .arr [.str "3", .str "4", .str "5"]),
             ("answer", .str "4")]]),
     ("fill_in", .arr []),
     ("short_answer", .arr [])]

/-- A stored exam with 4 questions across the three variants. -/
def bankScore : List (String × StoredDoc) :=
  [("doc",
    ⟨"text",
      ⟨[⟨none, "A", "1"⟩, ⟨none, "B", "2"⟩], [⟨none, "C", "3"⟩], [⟨none, "D", "4"⟩]⟩⟩)]

/-- A submission answering 3 of the 4 questions of `bankScore` correctly. -/
def ansScore : List (String × Answers) :=
  [("doc", [("A", "1"), ("B", "2"), ("C", "3"), ("D", "wrong")])]

/-- A stored exam with one question, for grading without any submission. -/
def bankOneQuestion : List (String × StoredDoc) :=
  [("doc", ⟨"text", ⟨[⟨none, "Q", "a"⟩], [], []⟩⟩)]

/-- A question tagged with the identifier `"1"`. -/
def qIdOnly : Question := ⟨some "1", "2+2?", "4"⟩

/-- A stored exam holding only `qIdOnly`. -/
def bankIdQuestion : List (String × StoredDoc) :=
  [("doc", ⟨"text", ⟨[qIdOnly], [], []⟩⟩)]

/-- A submission keyed by the question identifier rather than the prompt. -/
def ansById : List (String × Answers) := [("doc", [("1", "4")])]

/-- `gradeStep` rephrased through `isMatch` and `mkMismatch`. -/
theorem gradeStep_eq (answers : Answers) (st : GradeState) (q : Question) :
    gradeStep answers st q =
      if isMatch answers q then
        { st with correct := st.correct + 1, total := st.total + 1 }
      else
        { st with total := st.total + 1,
                  feedback := st.feedback ++ [mkMismatch answers q] } := rfl

/-- Closed form of the grading loop: `correct` counts the normalized
matches, `total` counts every question, and `feedback` collects a
mismatch record for exactly the non-matching questions, in order. -/
theorem foldl_gradeStep (answers : Answers) (qs : List Question) (st : GradeState) :
    qs.foldl (gradeStep answers) st =
      ⟨st.correct + qs.countP (isMatch answers),
       st.total + qs.length,
       st.feedback ++
         (qs.filter (fun q => !(isMatch answers q))).map (mkMismatch answers)⟩ := by
  induction qs generalizing st with
  | nil => simp
  | cons q qs ih =>
    rw [List.foldl_cons, ih, gradeStep_eq]
    by_cases h : isMatch answers q
    · simp [h, List.countP_cons, List.filter_cons, GradeState.mk.injEq]
      omega
    · simp [h, List.countP_cons, List.filter_cons, GradeState.mk.injEq]
      omega

/-- The grading loop from its initial state. -/
theorem gradeAll_eq (answers : Answers) (qs : List Question) :
    gradeAll answers qs =
      ⟨qs.countP (isMatch answers),
       qs.length,
       (qs.filter (fun q => !(isMatch answers q))).map (mkMismatch answers)⟩ := by
  simpa [gradeAll] using foldl_gradeStep answers qs ⟨0, 0, []⟩

/-- Closed form of `get_results` in terms of the stored data. -/
theorem get_results_eq (question_bank : List (String × StoredDoc))
    (student_answers : List (String × Answers)) (filename : String) :
    get_results question_bank student_answers filename =
      { score :=
          computeScore
            ((storedQuestions question_bank filename).all.countP
              (isMatch (storedAnswers student_answers filename)))
            (storedQuestions question_bank filename).all.length
        score_display :=
          formatTenths
            (computeScore
              ((storedQuestions question_bank filename).all.countP
                (isMatch (storedAnswers student_answers filename)))
              (storedQuestions question_bank filename).all.length)
        correct :=
          (storedQuestions question_bank filename).all.countP
            (isMatch (storedAnswers student_answers filename))
        total := (storedQuestions question_bank filename).all.length
        feedback :=
          (((storedQuestions question_bank filename).all.filter
              (fun q => !(isMatch (storedAnswers student_answers filename) q))).map
            (mkMismatch (storedAnswers student_answers filename))).take 5
        suggestions :=
          suggestFor
            (computeScore
              ((storedQuestions question_bank filename).all.countP
                (isMatch (storedAnswers student_answers filename)))
              (storedQuestions question_bank filename).all.length) } := by
  simp [get_results, gradeAll_eq]

/-- The score of line 250 is never negative. -/
theorem computeScore_nonneg (correct total : Nat) : 0 ≤ computeScore correct total := by
  unfold computeScore
  split
  · positivity
  · exact le_refl 0

/-- With at most `total` correct answers the score of line 250 is at most
100. -/
theorem computeScore_le_100 (correct total : Nat) (h : correct ≤ total) :
    computeScore correct total ≤ 100 := by
  unfold computeScore
  split
  · rename_i ht
    have ht' : (0 : ℚ) < (total : ℚ) := by exact_mod_cast ht
    rw [div_mul_eq_mul_div, div_le_iff₀ ht']
    have h' : (correct : ℚ) ≤ (total : ℚ) := by exact_mod_cast h
    nlinarith
  · norm_num

/-- Rounding to the nearest tenth preserves nonnegativity. -/
theorem formatTenths_nonneg (s : ℚ) (h : 0 ≤ s) : 0 ≤ formatTenths s := by
  unfold formatTenths
  apply div_nonneg _ (by norm_num)
  have : (0 : ℤ) ≤ ⌊s * 10 + 1 / 2⌋ := Int.floor_nonneg.mpr (by nlinarith)
  exact_mod_cast this

/-- Rounding to the nearest tenth never pushes a score above 100. -/
theorem formatTenths_le_100 (s : ℚ) (h : s ≤ 100) : formatTenths s ≤ 100 := by
  unfold formatTenths
  rw [div_le_iff₀ (by norm_num : (0 : ℚ) < 10)]
  have hlt : s * 10 + 1 / 2 < ((1001 : ℤ) : ℚ) := by push_cast; nlinarith
  have hfl : ⌊s * 10 + 1 / 2⌋ ≤ 1000 := by
    have := Int.floor_lt.mpr hlt
    omega
  calc ((⌊s * 10 + 1 / 2⌋ : ℤ) : ℚ) ≤ ((1000 : ℤ) : ℚ) := by exact_mod_cast hfl
    _ = 100 * 10 := by norm_num

/-- A question list splits into its matches and its non-matches. -/
theorem countP_add_countP_not (p : Question → Bool) (l : List Question) :
    l.countP p + l.countP (fun a => !p a) = l.length := by
  induction l with
  | nil => simp
  | cons a l ih =>
    by_cases h : p a <;> simp [List.countP_cons, h] <;> omega

/-- Claim C1: a question is marked correct exactly when the submitted and
the canonical answer are equal after the one shared normalization -
leading/trailing whitespace trimming then case-folding (`normalize`) -
uniformly across all three question variants (the flattened
`QuestionSet.all` covers multiple choice, fill-in and short answer); in
particular a submitted `"  Paris "` matches a canonical `"paris"`. -/
theorem C1_sole_normalized_match_criterion :
    (∀ (question_bank : List (String × StoredDoc))
        (student_answers : List (String × Answers)) (filename : String),
        (get_results question_bank student_answers filename).correct =
          (storedQuestions question_bank filename).all.countP
            (isMatch (storedAnswers student_answers filename)) ∧
        (get_results question_bank student_answers filename).correct +
            (storedQuestions question_bank filename).all.countP
              (fun q => !(isMatch (storedAnswers student_answers filename) q)) =
          (get_results question_bank student_answers filename).total) ∧
      (∀ (a : Answers) (q : Question),
        isMatch a q = (normalize ((a.lookup q.question).getD "") == normalize q.answer)) ∧
      isMatch [("Q", "  Paris ")] ⟨none, "Q", "paris"⟩ = true ∧
      normalize "  Paris " = normalize "paris" := by
  refine ⟨?_, fun a q => rfl, by decide, by decide⟩
  intro question_bank student_answers filename
  simp only [get_results_eq]
  exact ⟨trivial, countP_add_countP_not _ _⟩

/-- Claim C2: the displayed score is the exact rational
`(correct / total) * 100` of line 250 (0 when `total = 0`, never a
division by zero) rounded to one decimal, it always lies in the 0-100
range, and with `total = 4`, `correct = 3` it is exactly 75. -/
theorem C2_score_formula_and_range :
    (∀ (question_bank : List (String × StoredDoc))
        (student_answers : List (String × Answers)) (filename : String),
        (get_results question_bank student_answers filename).score =
          computeScore (get_results question_bank student_answers filename).correct
            (get_results question_bank student_answers filename).total ∧
        (get_results question_bank student_answers filename).score_display =
          formatTenths (get_results question_bank student_answers filename).score ∧
        0 ≤ (get_results question_bank student_answers filename).score_display ∧
        (get_results question_bank student_answers filename).score_display ≤ 100) ∧
      (∀ c : Nat, computeScore c 0 = 0) ∧
      (get_results bankScore ansScore "doc").correct = 3 ∧
      (get_results bankScore ansScore "doc").total = 4 ∧
      (get_results bankScore ansScore "doc").score_display = 75 := by
  refine ⟨?_, fun c => by simp [computeScore], by decide, by decide, ?_⟩
  · intro question_bank student_answers filename
    simp only [get_results_eq]
    refine ⟨trivial, trivial, ?_, ?_⟩
    · exact formatTenths_nonneg _ (computeScore_nonneg _ _)
    · exact formatTenths_le_100 _
        (computeScore_le_100 _ _ (List.countP_le_length _))
  · have hc :
        (storedQuestions bankScore "doc").all.countP
          (isMatch (storedAnswers ansScore "doc")) = 3 := by decide
    have ht : (storedQuestions bankScore "doc").all.length = 4 := by decide
    simp only [get_results_eq, hc, ht]
    norm_num [computeScore, formatTenths]

/-- Claim C3: the feedback list of the response is `feedback[:5]` - its
entries are the mismatch records of the first incorrect questions in
question order across the whole exam, and its length is
`min(5, number of incorrect questions)`. -/
theorem C3_feedback_cap :
    ∀ (question_bank : List (String × StoredDoc))
      (student_answers : List (String × Answers)) (filename : String),
      (get_results question_bank student_answers filename).feedback =
        (((storedQuestions question_bank filename).all.filter
            (fun q => !(isMatch (storedAnswers student_answers filename) q))).map
          (mkMismatch (storedAnswers student_answers filename))).take 5 ∧
      (get_results question_bank student_answers filename).feedback.length =
        min 5 ((storedQuestions question_bank filename).all.countP
          (fun q => !(isMatch (storedAnswers student_answers filename) q))) := by
  intro question_bank student_answers filename
  simp only [get_results_eq]
  refine ⟨trivial, ?_⟩
  rw [List.length_take, List.length_map, List.countP_eq_length_filter]

/-- The tier selection of lines 251-270 always yields exactly 3
suggestions, from exactly one tier. -/
theorem suggestFor_spec (s : ℚ) :
    (suggestFor s).length = 3 ∧
      ((s < 50 ∧ suggestFor s = foundationalSuggestions) ∨
        (50 ≤ s ∧ s < 75 ∧ suggestFor s = applicationSuggestions) ∨
        (75 ≤ s ∧ suggestFor s = masterySuggestions)) := by
  rcases lt_or_le s 50 with h1 | h1
  · rw [suggestFor, if_pos h1]
    exact ⟨rfl, Or.inl ⟨h1, rfl⟩⟩
  · rcases lt_or_le s 75 with h2 | h2
    · rw [suggestFor, if_neg (not_lt.mpr h1), if_pos h2]
      exact ⟨rfl, Or.inr (Or.inl ⟨h1, h2, rfl⟩)⟩
    · rw [suggestFor, if_neg (not_lt.mpr h1), if_neg (not_lt.mpr h2)]
      exact ⟨rfl, Or.inr (Or.inr ⟨h2, rfl⟩)⟩

/-- Claim C4, amended: for a document identifier with no stored exam set,
a results request succeeds - on that path the source body never enters
the grading loop (main.py lines 234-247), so nothing can raise - and
degrades gracefully to `total = 0`, `score = 0` (also as displayed), and
an empty feedback (mismatch) list, while the suggestions list is the
3-element foundational tier rather than empty (see C10).  When an exam
set is stored but no submission is, `total` still counts the stored
questions (see the counterexample). -/
theorem C4_empty_examstore_degrades (question_bank : List (String × StoredDoc))
    (student_answers : List (String × Answers)) (filename : String)
    (h : question_bank.lookup filename = none) :
    (get_results question_bank student_answers filename).total = 0 ∧
    (get_results question_bank student_answers filename).score = 0 ∧
    (get_results question_bank student_answers filename).score_display = 0 ∧
    (get_results question_bank student_answers filename).feedback = [] ∧
    (get_results question_bank student_answers filename).suggestions =
      foundationalSuggestions := by
  have hq : storedQuestions question_bank filename = ⟨[], [], []⟩ := by
    simp [storedQuestions, h]
  simp only [get_results_eq, hq]
  refine ⟨by simp [QuestionSet.all], ?_, ?_, by simp [QuestionSet.all], ?_⟩
  · simp [QuestionSet.all, computeScore]
  · simp [QuestionSet.all, computeScore]
    norm_num [formatTenths]
  · simp [QuestionSet.all, computeScore]
    norm_num [suggestFor]

/-- Witness for C4: both stores empty at an unknown identifier. -/
theorem C4_empty_examstore_degrades_witness :
    List.lookup "missing" ([] : List (String × StoredDoc)) = none ∧
    ((get_results [] [] "missing").total = 0 ∧
      (get_results [] [] "missing").score = 0 ∧
      (get_results [] [] "missing").score_display = 0 ∧
      (get_results [] [] "missing").feedback = [] ∧
      (get_results [] [] "missing").suggestions = foundationalSuggestions) :=
  ⟨rfl, C4_empty_examstore_degrades [] [] "missing" rfl⟩

/-- Counterexample to claim C4 as stated: an identifier with a stored exam
set but no stored answer submission is covered by the claim's "no stored
exam set and/or no stored answer submission", yet grading yields
`total = 1`, not 0, and a nonempty feedback list - each stored question is
graded against the empty string. -/
theorem C4_missing_submission_counterexample :
    (get_results bankOneQuestion [] "doc").total = 1 ∧
    (get_results bankOneQuestion [] "doc").feedback = [⟨"Q", "", "a"⟩] := by
  decide

/-- Claim C5, amended: the grader processes every question of the set in
order and looks the submitted answer up solely by the question's prompt
text - the question identifier is never consulted (grading is invariant
under changing the `id` field); a question with no submitted answer under
its prompt is graded against the empty string rather than raising, and
still counts toward `total` (which always equals the number of stored
questions). -/
theorem C5_prompt_only_lookup :
    (∀ (question_bank : List (String × StoredDoc))
        (student_answers : List (String × Answers)) (filename : String),
        (get_results question_bank student_answers filename).total =
          (storedQuestions question_bank filename).all.length) ∧
      (∀ (a : Answers) (i j : Option String) (p c : String),
        isMatch a ⟨i, p, c⟩ = isMatch a ⟨j, p, c⟩) ∧
      (∀ (a : Answers) (i j : Option String) (p c : String),
        mkMismatch a ⟨i, p, c⟩ = mkMismatch a ⟨j, p, c⟩) ∧
      (∀ (i : Option String) (p c : String),
        isMatch [] ⟨i, p, c⟩ = (normalize "" == normalize c)) :=
  ⟨fun question_bank student_answers filename => by simp [get_results_eq],
   fun a i j p c => rfl, fun a i j p c => rfl, fun i p c => rfl⟩

/-- Counterexample to claim C5 as stated: a submission keyed by the
question identifier `"1"` carries the right answer, and the claimed
id-first lookup (`lookupByIdSpec`, modelled from the spec) finds it - a
normalized match - yet the code, looking up only the prompt text, finds
no answer and marks the question incorrect. -/
theorem C5_id_lookup_counterexample :
    (get_results bankIdQuestion ansById "doc").correct = 0 ∧
    (get_results bankIdQuestion ansById "doc").total = 1 ∧
    lookupByIdSpec (storedAnswers ansById "doc") qIdOnly = "4" ∧
    normalize (lookupByIdSpec (storedAnswers ansById "doc") qIdOnly) =
      normalize qIdOnly.answer := by
  decide

/-- Claim C6, amended: text extraction fails exactly when the declared
format is unsupported or the byte buffer cannot be parsed by the expected
decoder; a decoded document with zero extractable text is NOT an error -
it is returned as an empty-string success (see the counterexample). -/
theorem C6_extraction_failure_characterization :
    ∀ (file_bytes : DocBytes) (extension : String),
      extractionFails file_bytes extension =
        ((extension == "pdf") && file_bytes.asPdf.isNone ||
          (extension == "pptx" || extension == "ppt") && file_bytes.asSlides.isNone ||
          (extension == "docx") && file_bytes.asDocx.isNone ||
          !(extension == "pdf" || extension == "pptx" || extension == "ppt" ||
            extension == "docx")) := by
  intro file_bytes extension
  unfold extractionFails extract_text
  cases h1 : extension == "pdf" <;> cases h2 : extension == "pptx" <;>
    cases h3 : extension == "ppt" <;> cases h4 : extension == "docx" <;>
    cases hp : file_bytes.asPdf <;> cases hs : file_bytes.asSlides <;>
    cases hd : file_bytes.asDocx <;>
    simp_all

/-- Counterexample to claim C6 as stated: a byte buffer that parses as a
PDF with zero extractable text yields `Except.ok ""`, not an
`ExtractionError`, and the upload pipeline proceeds to exam generation
and stores the generated set for it. -/
theorem C6_empty_text_counterexample :
    extract_text pdfNoText "pdf" = Except.ok "" ∧
    extractionFails pdfNoText "pdf" = false ∧
    upload_file pdfNoText "notes.pdf" (some emptyReply) [] =
      (Except.ok emptyReply, [("notes.pdf", ⟨"", emptyReply⟩)]) :=
  ⟨rfl, rfl, rfl⟩

/-- Claim C7, amended: a `.ppt` upload is dispatched to the very same
modern-slide decoder as `.pptx` - the legacy bytes are parsed directly
(the extraction outcome, up to the error-message text naming the
extension, is identical to the `.pptx` one); no FormatConverter exists in
the code. -/
theorem C7_ppt_parsed_directly :
    ∀ file_bytes : DocBytes,
      (extract_text file_bytes "ppt").toOption =
        (extract_text file_bytes "pptx").toOption := by
  intro file_bytes
  cases h : file_bytes.asSlides <;> simp [extract_text, h, Except.toOption]

/-- Counterexample to claim C7 as stated: on bytes that the modern
decoder happens to accept, `.ppt` extraction succeeds with the direct
parse of the raw, unconverted bytes, whereas the conversion-first routing
the claim describes (`extract_text_with_converter`, modelled from the
spec) would fail here with a `ConversionError` since the conversion
utility is unavailable - the code never invokes any converter. -/
theorem C7_no_conversion_counterexample :
    extract_text pptLegacyBytes "ppt" = Except.ok "legacy shape text" ∧
    extract_text_with_converter failingConverter pptLegacyBytes "ppt" =
      Except.error "ConversionError: external conversion utility failed" :=
  ⟨rfl, rfl⟩

/-- Claim C8, amended: the only check applied to the language-model reply
is JSON parsing - an unparseable reply fails with the 500 parse error,
and any parseable JSON value is accepted wholesale, with no required-field
or option-count validation (the spec-modelled `validExamReply_spec` shows
what is not enforced). -/
theorem C8_parse_is_sole_validation :
    (∀ j : Json, parse_generation_reply (some j) = Except.ok j) ∧
    parse_generation_reply none =
      Except.error ⟨500, "Failed to parse question format. Please try again."⟩ ∧
    validExamReply_spec emptyReply = true ∧
    validExamReply_spec badReply3 = false :=
  ⟨fun j => rfl, rfl, rfl, rfl⟩

/-- Counterexample to claim C8 as stated: a parseable reply whose single
multiple-choice record is missing its 4th option - invalid under the
spec's schema - is accepted by the code and stored in the question bank
by the upload pipeline. -/
theorem C8_three_option_mc_accepted :
    parse_generation_reply (some badReply3) = Except.ok badReply3 ∧
    mcEntryValid
      (Json.obj
        [("question", Json.str "2+2?"),
         ("options", Json.arr [Json.str "3", Json.str "4", Json.str "5"]),
         ("answer", Json.str "4")]) = false ∧
    upload_file pdfSampleBytes "a.pdf" (some badReply3) [] =
      (Except.ok badReply3, [("a.pdf", ⟨"slide text", badReply3⟩)]) :=
  ⟨rfl, rfl, rfl⟩

/-- Claim C9: the code raises `HTTPException(400)` on a non-JSON answer
body, but its own blanket `except Exception` handler (which, unlike
`upload_file`, has no `except HTTPException` passthrough) catches it and
rewraps it as a 500 - so the endpoint answers 500, not the claimed 400;
the stored answers are left unchanged, as claimed. -/
theorem C9_submit_answers_500_on_bad_json :
    ∀ (filename : String) (student_answers : List (String × Answers)),
      submit_answers none filename student_answers =
        (Except.error
          ⟨500, "Failed to process answers: 400: Invalid answer format. Use JSON."⟩,
          student_answers) := by
  intro filename student_answers
  rfl

/-- Claim C10: every results computation - the degenerate score 0 for an
unknown identifier included - returns exactly 3 suggestion strings,
chosen by exactly one of the three tiers `score < 50`,
`50 <= score < 75`, `score >= 75` on the raw score. -/
theorem C10_suggestions_three_tiers :
    (∀ (question_bank : List (String × StoredDoc))
        (student_answers : List (String × Answers)) (filename : String),
        (get_results question_bank student_answers filename).suggestions.length = 3 ∧
          (((get_results question_bank student_answers filename).score < 50 ∧
              (get_results question_bank student_answers filename).suggestions =
                foundationalSuggestions) ∨
            (50 ≤ (get_results question_bank student_answers filename).score ∧
              (get_results question_bank student_answers filename).score < 75 ∧
              (get_results question_bank student_answers filename).suggestions =
                applicationSuggestions) ∨
            (75 ≤ (get_results question_bank student_answers filename).score ∧
              (get_results question_bank student_answers filename).suggestions =
                masterySuggestions))) ∧
      (get_results [] [] "unknown").score = 0 ∧
      (get_results [] [] "unknown").suggestions = foundationalSuggestions := by
  refine ⟨?_, ?_, ?_⟩
  · intro question_bank student_answers filename
    simp only [get_results_eq]
    exact suggestFor_spec _
  · simp [get_results_eq, storedQuestions, QuestionSet.all, computeScore]
  · simp [get_results_eq, storedQuestions, QuestionSet.all, computeScore]
    norm_num [suggestFor]

end SlideSolve
